import Mathlib

/-!
Verification development for the Embedded-Comm task scheduler
(`src/task_scheduler/task_scheduler.py` and `src/task_scheduler/task.py`).

Shallow embedding conventions:

* The module-level mutable globals of `task_scheduler.py` (`_task_holder`,
  `_task_queue`, `_prev_task`, `_start_time`, the serial channel) become the
  fields of one explicit state record `Sched`.
* Python `Task` objects are mutable and shared between the registry, the
  queue and `_prev_task`; object identity matters (queue membership and the
  `_prev_task == task` comparison use default identity equality, since
  `Task` defines no `__eq__`).  We therefore model a heap: each task object
  is a `TaskObj` stored in `Sched.tasks` under a reference number `ref`,
  and the registry / queue / `_prev_task` hold references.
* The protobuf message object is opaque per the design (an external
  serialize/deserialize capability).  Its abstract value is a `List Nat`
  of field contents; `Clear()` resets it to `[]`; each task carries a
  `MsgSchema` with a `parse` function (`ParseFromString`, `none` models a
  raised `DecodeError`) and a `serialize` function
  (`SerializePartialToString`).
* Callbacks are zero-argument procedures that act through the scheduler's
  public interface, as the repository's callbacks do.  They are embedded
  as lists of primitive actions `CbAct` (notify completion via
  `pass_completion_message`, schedule a task, store a value into a task's
  message buffer); `runCb` interprets them over `Sched`.
* Exceptions: Python has no try/except anywhere in this module, so a raise
  aborts the current call chain with all global mutations made so far kept.
  Fallible operations return `Sched × Option Err`: the state as mutated up
  to the raise point, plus the exception if one was raised.
* Time: `time()` values are modelled as `Nat` (`Sched.now`); a tick does
  not advance the clock, the caller does between ticks.  The channel-open
  read budget is abstracted: one read burst delivers the whole pending
  byte buffer (`Sched.inbuf`), matching the wire-format assumption that
  one frame arrives per burst.
* Transport writes are recorded in order in `Sched.written`; transport
  failure (a fatal, never-caught error) is out of the claims' scope and
  the write itself is modelled as always succeeding.
* `Sched.cbLog` is an observation trace: the scheduler appends a task's
  reference each time it invokes that task's callback.  Interpreting a
  callback's actions never touches `cbLog`, so counting occurrences in
  `cbLog` counts scheduler-initiated callback invocations exactly.
-/

namespace EmbeddedComm

/-- Python exceptions that the embedded code can raise. -/
inductive Err where
  /-- `DecodeError` from `msg.ParseFromString` on a malformed payload. -/
  | decodeError
  /-- `TypeError` from calling a `None` callback. -/
  | typeError
  /-- `KeyError` raised by `Task.__init__` on a duplicate task id. -/
  | keyError
  /-- `ValueError` raised by `Task.__init__` for an rx task without callback. -/
  | valueError
  /-- `OverflowError` from `task_id.to_bytes(1, "big")` when the id exceeds a byte. -/
  | overflowError
deriving DecidableEq, Repr

/-- The opaque per-task payload capability: `ParseFromString` (returning
`none` models a raised `DecodeError`) and `SerializePartialToString`. -/
structure MsgSchema where
  parse : List Nat → Option (List Nat)
  serialize : List Nat → List Nat

/-- Primitive effects available to a zero-argument callback through the
scheduler interface: `task.alert_completion()` (which is
`pass_completion_message`, i.e. `_transmit_message`), `task.schedule()`
(which is `schedule_task`), and storing fresh field values into a task's
message buffer (as the ROS tx callback does before scheduling). -/
inductive CbAct where
  | alertCompletion (ref : Nat)
  | scheduleTask (ref : Nat)
  | setMsg (ref : Nat) (v : List Nat)
deriving DecidableEq, Repr

/-- One Python `Task` object (src/task_scheduler/task.py).  `id` is the
single byte stored by `task_id.to_bytes(1, "big")` (so `id < 256`);
`msg` is the current abstract value of the protobuf message buffer. -/
structure TaskObj where
  id : Nat
  is_rx : Bool
  msg : List Nat
  schema : MsgSchema
  callback : Option (List CbAct)

/-- The module-level state of `task_scheduler.py` plus the observation
traces (`written`, `cbLog`) and the heap of task objects. -/
structure Sched where
  /-- Heap of task objects, keyed by reference number (object identity). -/
  tasks : List (Nat × TaskObj)
  /-- `_task_holder`: task id → reference of the registered task. -/
  task_holder : List (Nat × Nat)
  /-- `_task_queue`: references of the queued tx tasks, head first. -/
  task_queue : List Nat
  /-- `_prev_task`: reference of the previously handled task, if any. -/
  prev_task : Option Nat
  /-- `_start_time`. -/
  start_time : Nat
  /-- The current value of `time()`. -/
  now : Nat
  /-- Bytes pending on the serial channel (`in_waiting` and `read`). -/
  inbuf : List Nat
  /-- Trace of the byte strings passed to `_SER_CH.write`, in order. -/
  written : List (List Nat)
  /-- Trace of scheduler-initiated callback invocations (task references). -/
  cbLog : List Nat

/-- Association-list lookup (Python `dict.get` / our heap dereference). -/
def alookup (k : Nat) : List (Nat × α) → Option α
  | [] => none
  | (k', v) :: rest => if k = k' then some v else alookup k rest

/-- Association-list pointwise update of the value stored under `k`
(mutation of a shared object through one of its references). -/
def aupdate (k : Nat) (f : α → α) : List (Nat × α) → List (Nat × α)
  | [] => []
  | (k', v) :: rest => if k = k' then (k', f v) :: rest else (k', v) :: aupdate k f rest

/-- Mutate the message buffer of the task object referenced by `r`. -/
def setTaskMsg (s : Sched) (r : Nat) (v : List Nat) : Sched :=
  { s with tasks := aupdate r (fun t => { t with msg := v }) s.tasks }

/-- `get_task`: look the task id up in `_task_holder` (returns the task
reference, our stand-in for the object). -/
def get_task (s : Sched) (task_id : Nat) : Option Nat :=
  alookup task_id s.task_holder

/-- `is_task_in_queue`: `task in _task_queue` (identity membership). -/
def is_task_in_queue (s : Sched) (r : Nat) : Bool :=
  decide (r ∈ s.task_queue)

/-- `is_task_registered`: `task_id in _task_holder`. -/
def is_task_registered (s : Sched) (task_id : Nat) : Bool :=
  (get_task s task_id).isSome

/-- `register_task`: `_task_holder[task_id] = task` (dict assignment;
prepending together with first-match lookup gives overwrite semantics). -/
def register_task (s : Sched) (task_id : Nat) (r : Nat) : Sched :=
  { s with task_holder := (task_id, r) :: s.task_holder }

/-- `schedule_task`: append the task to `_task_queue` unless already present. -/
def schedule_task (s : Sched) (r : Nat) : Sched :=
  if r ∈ s.task_queue then s
  else { s with task_queue := s.task_queue ++ [r] }

/-- `_transmit_message`: `_SER_CH.write(task.id + task.msg.SerializePartialToString())`.
(The reference is always allocated for states built through the interface;
on a dangling reference we leave the state unchanged.) -/
def transmit_message (s : Sched) (r : Nat) : Sched :=
  match alookup r s.tasks with
  | none => s
  | some t => { s with written := s.written ++ [t.id :: t.schema.serialize t.msg] }

/-- `pass_completion_message`: forwards to `_transmit_message`. -/
def pass_completion_message (s : Sched) (r : Nat) : Sched :=
  transmit_message s r

/-- Interpret one primitive callback action. -/
def runAct (s : Sched) : CbAct → Sched
  | .alertCompletion r => pass_completion_message s r
  | .scheduleTask r => schedule_task s r
  | .setMsg r v => setTaskMsg s r v

/-- Interpret a callback body (a sequence of interface calls). -/
def runCb (s : Sched) (acts : List CbAct) : Sched :=
  acts.foldl runAct s

/-- `_TASK_RESET_TIME`: retry interval (1 time unit). -/
def TASK_RESET_TIME : Nat := 1

/-- `_route_data` (src/task_scheduler/task_scheduler.py:106-122):

    task = _task_holder.get(task_id)
    if task is not None:                      # rx branch
        task.msg.ParseFromString(msg_str)     # may raise DecodeError
        task.callback()                       # TypeError if callback is None
        task.msg.Clear()
    elif len(_task_queue) != 0 and task_id == _task_queue[0].id[0]:
        _task_queue.popleft()

Noteworthy: the rx branch sends nothing itself; a completion frame goes out
only if the callback body calls `alert_completion`. -/
def route_data (s : Sched) (task_id : Nat) (msg_str : List Nat) : Sched × Option Err :=
  match get_task s task_id with
  | some r =>
    match alookup r s.tasks with
    | none => (s, none)  -- unreachable: registered references are allocated
    | some t =>
      match t.schema.parse msg_str with
      | none => (s, some .decodeError)
      | some v =>
        match t.callback with
        | none => (setTaskMsg s r v, some .typeError)
        | some acts =>
          let s1 := setTaskMsg s r v
          let s2 := { s1 with cbLog := s1.cbLog ++ [r] }
          let s3 := runCb s2 acts
          (setTaskMsg s3 r [], none)
  | none =>
    match s.task_queue with
    | [] => (s, none)
    | rq :: rest =>
      match alookup rq s.tasks with
      | none => (s, none)  -- unreachable: queued references are allocated
      | some tq =>
        if task_id = tq.id then ({ s with task_queue := rest }, none)
        else (s, none)

/-- `_extract_message` + `_handle_incoming_message`: the read loop drains the
pending bytes (first byte = task id, remainder = payload) and routes them.
Only called when `in_waiting` is non-zero, so `inbuf` is non-empty there. -/
def handle_incoming_message (s : Sched) : Sched × Option Err :=
  match s.inbuf with
  | [] => (s, none)  -- unreachable: guarded by `if _SER_CH.in_waiting`
  | i :: payload => route_data { s with inbuf := [] } i payload

/-- `_handle_current_task` (src/task_scheduler/task_scheduler.py:127-149):

    task = _task_queue[0]
    is_prev_task = _prev_task == task
    reset_task_timer = time() - _start_time > _TASK_RESET_TIME
    if (is_prev_task and reset_task_timer) or not is_prev_task:
        if task.callback is not None:
            task.callback()
        _transmit_message(task)
        task.msg.Clear()
        if reset_task_timer:
            _start_time = time()
        _prev_task = task
-/
def handle_current_task (s : Sched) : Sched :=
  match s.task_queue with
  | [] => s  -- unreachable: guarded by `if _task_queue`
  | r :: _ =>
    let is_prev_task : Bool := decide (s.prev_task = some r)
    let reset_task_timer : Bool := decide (s.now - s.start_time > TASK_RESET_TIME)
    if (is_prev_task && reset_task_timer) || !is_prev_task then
      let s1 :=
        match alookup r s.tasks with
        | some t =>
          match t.callback with
          | some acts => runCb { s with cbLog := s.cbLog ++ [r] } acts
          | none => s
        | none => s
      let s2 := transmit_message s1 r
      let s3 := setTaskMsg s2 r []
      let s4 := if reset_task_timer then { s3 with start_time := s3.now } else s3
      { s4 with prev_task := some r }
    else s

/-- `run` (one tick): inbound handling if bytes are pending, then outbound
handling if the queue is non-empty; an exception raised inside inbound
handling propagates out and skips outbound handling. -/
def run (s : Sched) : Sched × Option Err :=
  let (s1, e) := if s.inbuf ≠ [] then handle_incoming_message s else (s, none)
  match e with
  | some err => (s1, some err)
  | none => if s1.task_queue ≠ [] then (handle_current_task s1, none) else (s1, none)

/-- `Task.__init__` (src/task_scheduler/task.py:19-31):

    self.msg = msg_obj
    self.is_rx = is_rx
    self.callback = callback
    self.id = task_id.to_bytes(1, "big")     # OverflowError if not a byte
    if task_scheduler.is_task_registered(task_id):
        raise KeyError(...)
    elif is_rx:
        if callback is None:
            raise ValueError(...)
        task_scheduler.register_task(task_id, self)

The object (`self`) is allocated before the checks run; `ref` is the fresh
reference the caller picks for it. -/
def Task.init (s : Sched) (task_id : Nat) ( is_rx : Bool) (schema : MsgSchema)
    (msg0 : List Nat) (callback : Option (List CbAct)) (ref : Nat) : Sched × Option Err :=
  if 256 ≤ task_id then (s, some .overflowError)
  else
    let obj : TaskObj :=
      { id := task_id, is_rx := is_rx, msg := msg0, schema := schema, callback := callback }
    let s1 : Sched := { s with tasks := (ref, obj) :: s.tasks }
    if is_task_registered s1 task_id then (s1, some .keyError)
    else if is_rx then
      match callback with
      | none => (s1, some .valueError)
      | some _ => (register_task s1 task_id ref, none)
    else (s1, none)

/-! ### Concrete instances used by witnesses and counterexamples -/

/-- A schema whose parse always succeeds, with identity serialization. -/
def schOk : MsgSchema := ⟨fun l => some l, fun l => l⟩

/-- A schema that only accepts two-byte payloads (so a one-byte payload
raises `DecodeError`). -/
def schLen2 : MsgSchema := ⟨fun l => if l.length = 2 then some l else none, fun l => l⟩

/-- The freshly initialized scheduler state: empty registry, empty queue,
no previous task, timer just started. -/
def initSched : Sched :=
  { tasks := [], task_holder := [], task_queue := [], prev_task := none,
    start_time := 0, now := 0, inbuf := [], written := [], cbLog := [] }

/-- An rx task object (id 3) whose callback does nothing. -/
def rxNopTask : TaskObj :=
  { id := 3, is_rx := true, msg := [], schema := schOk, callback := some [] }

/-- State for the C1 counterexample: rx task `rxNopTask` registered under
id 3 at reference 11, and the frame `[3, 7, 8]` pending. -/
def exC1 : Sched :=
  { initSched with tasks := [(11, rxNopTask)], task_holder := [(3, 11)],
                   inbuf := [3, 7, 8] }

/-- A tx task object (id 5) with a one-byte stale buffer value. -/
def txTask5 : TaskObj :=
  { id := 5, is_rx := false, msg := [9], schema := schOk, callback := none }

/-- An rx task object (id 3) with the two-byte schema and a stale buffer. -/
def rxLen2Task : TaskObj :=
  { id := 3, is_rx := true, msg := [9], schema := schLen2, callback := some [] }

/-- State for the C2 counterexample: rx task `rxLen2Task` registered under
id 3 at reference 11, tx task `txTask5` queued at reference 21, and the
frame `[3, 7]` pending, whose one-byte payload fails the two-byte schema. -/
def exC2 : Sched :=
  { initSched with tasks := [(11, rxLen2Task), (21, txTask5)],
                   task_holder := [(3, 11)], task_queue := [21], inbuf := [3, 7] }

/-- A tx task (id 7) with pending field values and no callback. -/
def txTask7 : TaskObj :=
  { id := 7, is_rx := false, msg := [1, 2], schema := schOk, callback := none }

/-- State for the C3 scenario: `txTask7` at reference 31 is the single
scheduled task, no inbound bytes, timer started at 10 = now. -/
def exC3 : Sched :=
  { initSched with tasks := [(31, txTask7)], task_queue := [31],
                   start_time := 10, now := 10 }

/-- An rx task (id 3) whose callback triggers `alert_completion` on itself
(reference 11), the shape of the repository's ROS rx callback. -/
def rxAckTask : TaskObj :=
  { id := 3, is_rx := true, msg := [], schema := schOk,
    callback := some [.alertCompletion 11] }

/-- A tx task that shares the byte id 3 with the rx task `rxAckTask`. -/
def txTask3 : TaskObj :=
  { id := 3, is_rx := false, msg := [], schema := schOk, callback := none }

/-- The state after registering an rx task under id 4 at reference 1
(used to exercise the duplicate-id checks). -/
def regSched : Sched := (Task.init initSched 4 true schOk [] (some []) 1).1

/-- State for the C9 witness: rx task `rxNopTask` registered under id 3 at
reference 11 while the queue head (`txTask3` at reference 41) carries the
same byte id 3. -/
def exC9 : Sched :=
  { initSched with tasks := [(11, rxNopTask), (41, txTask3)],
                   task_holder := [(3, 11)], task_queue := [41] }

/-! ### Helper lemmas on the association-list heap and callback runs -/

theorem alookup_aupdate_self (k : Nat) (f : α → α) (l : List (Nat × α)) :
    alookup k (aupdate k f l) = (alookup k l).map f := by
  induction l with
  | nil => rfl
  | cons p rest ih =>
    obtain ⟨k', v⟩ := p
    by_cases h : k = k' <;> simp [alookup, aupdate, h, ih]

theorem runAct_cbLog (s : Sched) (a : CbAct) : (runAct s a).cbLog = s.cbLog := by
  cases a with
  | alertCompletion r =>
    simp only [runAct, pass_completion_message, transmit_message]
    cases alookup r s.tasks <;> rfl
  | scheduleTask r =>
    simp only [runAct, schedule_task]
    split <;> rfl
  | setMsg r v => rfl

theorem runCb_cbLog (acts : List CbAct) (s : Sched) : (runCb s acts).cbLog = s.cbLog := by
  induction acts generalizing s with
  | nil => rfl
  | cons a rest ih => simp only [runCb, List.foldl_cons] at *; rw [ih, runAct_cbLog]

theorem runAct_queue_head (s : Sched) (a : CbAct) (x : Nat) (l : List Nat)
    (h : s.task_queue = x :: l) : ∃ l', (runAct s a).task_queue = x :: l' := by
  cases a with
  | alertCompletion r =>
    refine ⟨l, ?_⟩
    simp only [runAct, pass_completion_message, transmit_message]
    cases alookup r s.tasks <;> simpa using h
  | scheduleTask r =>
    simp only [runAct, schedule_task]
    split
    · exact ⟨l, h⟩
    · exact ⟨l ++ [r], by simp [h]⟩
  | setMsg r v => exact ⟨l, h⟩

theorem runCb_queue_head (acts : List CbAct) (s : Sched) (x : Nat) (l : List Nat)
    (h : s.task_queue = x :: l) : ∃ l', (runCb s acts).task_queue = x :: l' := by
  induction acts generalizing s l with
  | nil => exact ⟨l, h⟩
  | cons a rest ih =>
    obtain ⟨l', h'⟩ := runAct_queue_head s a x l h
    simpa only [runCb, List.foldl_cons] using ih (runAct s a) l' h'

/-- The rx branch of `_route_data`, unfolded: parse into the buffer, log and
run the callback, clear the buffer.  No transmission happens here except
what the callback body itself performs. -/
theorem route_data_rx (s : Sched) (i r : Nat) (t : TaskObj) (payload v : List Nat)
    (acts : List CbAct) (hreg : get_task s i = some r) (ht : alookup r s.tasks = some t)
    (hp : t.schema.parse payload = some v) (hcb : t.callback = some acts) :
    route_data s i payload =
      (setTaskMsg (runCb { setTaskMsg s r v with cbLog := s.cbLog ++ [r] } acts) r [],
       none) := by
  simp only [route_data, hreg, ht, hp, hcb, setTaskMsg]

/-- `_handle_current_task` is a no-op when the head equals the previously
handled task and the retry interval has not elapsed. -/
theorem handle_current_no_act (s : Sched) (r : Nat) (rest : List Nat)
    (hq : s.task_queue = r :: rest) (hprev : s.prev_task = some r)
    (htime : s.now - s.start_time ≤ TASK_RESET_TIME) :
    handle_current_task s = s := by
  have h2 : ¬ (TASK_RESET_TIME < s.now - s.start_time) := Nat.not_lt.mpr htime
  simp [handle_current_task, hq, hprev, h2]

/-- `_handle_current_task` acts on the head when it is not a repeat or the
retry interval has elapsed: for a head with no callback, it transmits the
head's id byte plus serialized payload, clears the head's buffer, resets the
timer exactly when it had expired, and records the head as previous task. -/
theorem handle_current_act (s : Sched) (r : Nat) (rest : List Nat) (t : TaskObj)
    (hq : s.task_queue = r :: rest)
    (hcond : s.prev_task ≠ some r ∨ TASK_RESET_TIME < s.now - s.start_time)
    (ht : alookup r s.tasks = some t) (hcb : t.callback = none) :
    handle_current_task s =
      { s with written := s.written ++ [t.id :: t.schema.serialize t.msg],
               tasks := aupdate r (fun t0 => { t0 with msg := [] }) s.tasks,
               start_time := if TASK_RESET_TIME < s.now - s.start_time then s.now
                             else s.start_time,
               prev_task := some r } := by
  rcases hcond with hne | hlt
  · have hd : decide (s.prev_task = some r) = false := by simp [hne]
    by_cases hT : TASK_RESET_TIME < s.now - s.start_time
    · simp [handle_current_task, hq, hd, ht, hcb, transmit_message, setTaskMsg, hT]
    · simp [handle_current_task, hq, hd, ht, hcb, transmit_message, setTaskMsg, hT]
  · simp [handle_current_task, hq, hlt, ht, hcb, transmit_message, setTaskMsg]

/-! ### Claims -/

/-- C4: an inbound frame whose id is not registered but equals the id of the
head of a non-empty queue is treated as a device acknowledgement: the head is
removed, the queue length decreases by exactly one, and nothing else in the
state changes (the result is the input state with the queue replaced by its
tail). -/
theorem c4_device_ack (s : Sched) (i rq : Nat) (rest : List Nat) (tq : TaskObj)
    (payload : List Nat) (hreg : get_task s i = none) (hq : s.task_queue = rq :: rest)
    (ht : alookup rq s.tasks = some tq) (hid : tq.id = i) :
    route_data s i payload = ({ s with task_queue := rest }, none) ∧
    (route_data s i payload).1.task_queue.length + 1 = s.task_queue.length := by
  have h1 : route_data s i payload = ({ s with task_queue := rest }, none) := by
    simp only [route_data, hreg, hq, ht, hid, if_pos]
  refine ⟨h1, ?_⟩
  rw [h1, hq]
  simp

/-- Witness for C4: in `exC2`, the frame `[5, 1]` matches no registration but
does match the queued tx task's id 5, so the head is popped. -/
theorem c4_witness :
    route_data exC2 5 [1] = ({ exC2 with task_queue := [] }, none) ∧
    (route_data exC2 5 [1]).1.task_queue.length + 1 = exC2.task_queue.length :=
  c4_device_ack exC2 5 21 [] txTask5 [1] rfl rfl rfl rfl

/-- C5: `schedule_task` is idempotent (enqueuing a task already present is a
no-op), scheduling into an empty queue gives length 1, and scheduling
preserves queue distinctness, so the queue never holds duplicates. -/
theorem c5_schedule_idempotent (s : Sched) (r : Nat) :
    schedule_task (schedule_task s r) r = schedule_task s r ∧
    (s.task_queue = [] → (schedule_task s r).task_queue = [r]) ∧
    (s.task_queue.Nodup → (schedule_task s r).task_queue.Nodup) := by
  refine ⟨?_, ?_, ?_⟩
  · by_cases h : r ∈ s.task_queue
    · simp [schedule_task, h]
    · simp [schedule_task, h]
  · intro h
    simp [schedule_task, h]
  · intro h
    by_cases hm : r ∈ s.task_queue
    · simpa [schedule_task, hm] using h
    · simp [schedule_task, hm, List.nodup_append, h, List.disjoint_singleton]

/-- Witness for C5: scheduling task reference 31 twice from the fresh state
leaves the queue at exactly `[31]`, which has no duplicates. -/
theorem c5_witness :
    schedule_task (schedule_task initSched 31) 31 = schedule_task initSched 31 ∧
    (schedule_task initSched 31).task_queue = [31] ∧
    (schedule_task initSched 31).task_queue.Nodup :=
  ⟨(c5_schedule_idempotent initSched 31).1,
   (c5_schedule_idempotent initSched 31).2.1 rfl,
   (c5_schedule_idempotent initSched 31).2.2 (by simp [initSched])⟩

/-- C8: an inbound frame whose id matches neither a registered rx task nor
the id of the queue head is discarded silently: `_route_data` returns the
state completely unchanged (no callback invocation, no queue change, no
write) and raises no error. -/
theorem c8_unroutable_silent_discard (s : Sched) (i : Nat) (payload : List Nat)
    (hreg : get_task s i = none)
    (hq : ∀ rq rest tq, s.task_queue = rq :: rest → alookup rq s.tasks = some tq →
      tq.id ≠ i) :
    route_data s i payload = (s, none) := by
  cases hql : s.task_queue with
  | nil => simp only [route_data, hreg, hql]
  | cons rq rest =>
    cases htl : alookup rq s.tasks with
    | none => simp only [route_data, hreg, hql, htl]
    | some tq =>
      have hne := hq rq rest tq hql htl
      simp only [route_data, hreg, hql, htl]
      rw [if_neg (by intro h; exact hne h.symm)]

/-- Witness for C8: in `exC2`, the frame `[9, 1]` matches no registration
(only id 3 is registered) and mismatches the queue head's id 5, so the
state is untouched. -/
theorem c8_witness : route_data exC2 9 [1] = (exC2, none) :=
  c8_unroutable_silent_discard exC2 9 [1] rfl (by
    intro rq rest tq h1 h2
    have hrq : 21 = rq ∧ rest = [] := by
      simpa [exC2, initSched] using h1
    rw [← hrq.1] at h2
    have htq : txTask5 = tq := by
      simpa [exC2, initSched, alookup] using h2
    simp [← htq, txTask5])

/-- C6: registering a second rx task under an id already present in the
registry fails with the duplicate-task error (`KeyError`), and on that
failure the registry is unchanged: the first task remains the one mapped to
that id. -/
theorem c6_duplicate_registration (s : Sched) (i : Nat) (sch1 sch2 : MsgSchema)
    (m1 m2 : List Nat) (cb1 : List CbAct) (cb2 : Option (List CbAct)) (rx2 : Bool)
    (r1 r2 : Nat) (hi : i < 256) (hfree : get_task s i = none) :
    (Task.init s i true sch1 m1 (some cb1) r1).2 = none ∧
    get_task (Task.init s i true sch1 m1 (some cb1) r1).1 i = some r1 ∧
    (Task.init (Task.init s i true sch1 m1 (some cb1) r1).1 i rx2 sch2 m2 cb2 r2).2 =
      some Err.keyError ∧
    get_task (Task.init (Task.init s i true sch1 m1 (some cb1) r1).1 i rx2 sch2 m2 cb2 r2).1 i =
      some r1 ∧
    (Task.init (Task.init s i true sch1 m1 (some cb1) r1).1 i rx2 sch2 m2 cb2 r2).1.task_holder =
      (Task.init s i true sch1 m1 (some cb1) r1).1.task_holder := by
  have h256 : ¬ 256 ≤ i := Nat.not_le.mpr hi
  have hfree' : alookup i s.task_holder = none := hfree
  have e1 : Task.init s i true sch1 m1 (some cb1) r1 =
      ({ s with tasks := (r1, ⟨i, true, m1, sch1, some cb1⟩) :: s.tasks,
                task_holder := (i, r1) :: s.task_holder }, none) := by
    simp [Task.init, h256, is_task_registered, get_task, hfree', register_task]
  rw [e1]
  simp [Task.init, h256, is_task_registered, get_task, alookup]

/-- Witness for C6: register an rx task under id 4, then a second
construction under id 4 fails with `KeyError` and id 4 still maps to the
first task's reference 1. -/
theorem c6_witness :
    (Task.init initSched 4 true schOk [] (some []) 1).2 = none ∧
    get_task (Task.init initSched 4 true schOk [] (some []) 1).1 4 = some 1 ∧
    (Task.init (Task.init initSched 4 true schOk [] (some []) 1).1 4 true schOk []
      (some []) 2).2 = some Err.keyError ∧
    get_task (Task.init (Task.init initSched 4 true schOk [] (some []) 1).1 4 true schOk []
      (some []) 2).1 4 = some 1 ∧
    (Task.init (Task.init initSched 4 true schOk [] (some []) 1).1 4 true schOk []
      (some []) 2).1.task_holder =
      (Task.init initSched 4 true schOk [] (some []) 1).1.task_holder :=
  c6_duplicate_registration initSched 4 schOk schOk [] [] [] (some []) true 1 2
    (by decide) rfl

/-- C7: constructing an rx task without a callback fails with the
configuration error (`ValueError`), and the failure happens before any
registry mutation: afterwards the registry still has no entry for that id
and is unchanged. -/
theorem c7_rx_needs_callback (s : Sched) (i : Nat) (sch : MsgSchema) (m : List Nat)
    (r : Nat) (hi : i < 256) (hfree : get_task s i = none) :
    (Task.init s i true sch m none r).2 = some Err.valueError ∧
    get_task (Task.init s i true sch m none r).1 i = none ∧
    (Task.init s i true sch m none r).1.task_holder = s.task_holder := by
  have h256 : ¬ 256 ≤ i := Nat.not_le.mpr hi
  have hfree' : alookup i s.task_holder = none := hfree
  simp [Task.init, h256, is_task_registered, get_task, hfree']

/-- Witness for C7: constructing an rx task under the fresh id 4 with no
callback fails with `ValueError` and leaves the registry empty of id 4. -/
theorem c7_witness :
    (Task.init initSched 4 true schOk [] none 1).2 = some Err.valueError ∧
    get_task (Task.init initSched 4 true schOk [] none 1).1 4 = none ∧
    (Task.init initSched 4 true schOk [] none 1).1.task_holder = initSched.task_holder :=
  c7_rx_needs_callback initSched 4 schOk [] 1 (by decide) rfl

/-- C10: the duplicate-id check at construction consults the registry
regardless of the new task's direction.  (a) A tx task whose id is already
registered fails with `KeyError` (registry untouched).  (b) Two tx tasks
sharing an unregistered id both construct successfully (tx tasks are never
registered, so the second sees no collision). -/
theorem c10_duplicate_check_ignores_direction (sA sB : Sched) (i : Nat)
    (sch0 sch1 sch2 : MsgSchema) (m0 m1 m2 : List Nat)
    (cb0 cb1 cb2 : Option (List CbAct)) (r0 r1 r2 : Nat) (hi : i < 256)
    (hA : (get_task sA i).isSome = true) (hB : get_task sB i = none) :
    ((Task.init sA i false sch0 m0 cb0 r0).2 = some Err.keyError ∧
      (Task.init sA i false sch0 m0 cb0 r0).1.task_holder = sA.task_holder) ∧
    ((Task.init sB i false sch1 m1 cb1 r1).2 = none ∧
      (Task.init (Task.init sB i false sch1 m1 cb1 r1).1 i false sch2 m2 cb2 r2).2 =
        none) := by
  have h256 : ¬ 256 ≤ i := Nat.not_le.mpr hi
  have hB' : alookup i sB.task_holder = none := hB
  constructor
  · obtain ⟨rA, hrA⟩ := Option.isSome_iff_exists.mp hA
    have hrA' : alookup i sA.task_holder = some rA := hrA
    constructor
    · simp [Task.init, h256, is_task_registered, get_task, hrA']
    · simp [Task.init, h256, is_task_registered, get_task, hrA']
  · have e1 : Task.init sB i false sch1 m1 cb1 r1 =
        ({ sB with tasks := (r1, ⟨i, false, m1, sch1, cb1⟩) :: sB.tasks }, none) := by
      simp [Task.init, h256, is_task_registered, get_task, hB']
    constructor
    · rw [e1]
    · rw [e1]
      simp [Task.init, h256, is_task_registered, get_task, hB']

/-- Witness for C10: with id 4 registered to an rx task (`regSched`), a tx
construction under id 4 fails with `KeyError`; from the fresh state, two tx
constructions under id 4 both succeed. -/
theorem c10_witness :
    ((Task.init regSched 4 false schOk [] none 2).2 = some Err.keyError ∧
      (Task.init regSched 4 false schOk [] none 2).1.task_holder = regSched.task_holder) ∧
    ((Task.init initSched 4 false schOk [] none 1).2 = none ∧
      (Task.init (Task.init initSched 4 false schOk [] none 1).1 4 false schOk []
        none 2).2 = none) :=
  c10_duplicate_check_ignores_direction regSched initSched 4 schOk schOk schOk [] [] []
    none none none 2 1 2 (by decide) rfl rfl

/-- C1 counterexample: in `exC1` the inbound frame `[3, 7, 8]` matches the
registered rx task (reference 11), whose callback body is empty.  The tick
deserializes, runs the callback exactly once and clears the buffer, but
`written` stays empty: no completion acknowledgement frame is written to the
transport, contradicting the claim that one tick always writes one.  The
routing code sends nothing itself; an acknowledgement exists only when the
callback body triggers it. -/
theorem c1_counterexample :
    (run exC1).2 = none ∧
    (run exC1).1.cbLog = [11] ∧
    (alookup 11 (run exC1).1.tasks).map TaskObj.msg = some [] ∧
    (run exC1).1.written = [] :=
  ⟨rfl, rfl, rfl, rfl⟩

/-- C1 (amended): for an inbound frame matching a registered rx task whose
callback notifies completion on itself (the shape of the repository's rx
callback), one tick deserializes the payload, invokes the callback exactly
once, clears the buffer, and exactly one completion frame with that task's
id byte — carrying the parsed (pre-clear) buffer contents — is written
directly to the transport, the queue left untouched. -/
theorem c1_rx_frame_tick (s : Sched) (i r : Nat) (t : TaskObj) (payload v : List Nat)
    (hreg : get_task s i = some r)
    (ht : alookup r s.tasks = some t)
    (hcb : t.callback = some [CbAct.alertCompletion r])
    (hp : t.schema.parse payload = some v)
    (hin : s.inbuf = i :: payload)
    (hq : s.task_queue = []) :
    ∃ s', run s = (s', none) ∧
      s'.cbLog = s.cbLog ++ [r] ∧
      (alookup r s'.tasks).map TaskObj.msg = some [] ∧
      s'.written = s.written ++ [t.id :: t.schema.serialize v] ∧
      s'.task_queue = [] ∧ s'.task_holder = s.task_holder ∧
      s'.prev_task = s.prev_task ∧ s'.start_time = s.start_time := by
  have hreg0 : get_task { s with inbuf := ([] : List Nat) } i = some r := hreg
  have ht0 : alookup r ({ s with inbuf := ([] : List Nat) } : Sched).tasks = some t := ht
  have hroute := route_data_rx { s with inbuf := ([] : List Nat) } i r t payload v
    [CbAct.alertCompletion r] hreg0 ht0 hp hcb
  have hcbrun : runCb { setTaskMsg { s with inbuf := ([] : List Nat) } r v with
      cbLog := ({ s with inbuf := ([] : List Nat) } : Sched).cbLog ++ [r] }
      [CbAct.alertCompletion r] =
      { s with inbuf := [], tasks := aupdate r (fun t0 => { t0 with msg := v }) s.tasks,
               cbLog := s.cbLog ++ [r],
               written := s.written ++ [t.id :: t.schema.serialize v] } := by
    simp [runCb, runAct, pass_completion_message, transmit_message, setTaskMsg,
      alookup_aupdate_self, ht]
  rw [hcbrun] at hroute
  refine ⟨setTaskMsg { s with
                       tasks := aupdate r (fun t0 => { t0 with msg := v }) s.tasks,
                       inbuf := [],
                       written := s.written ++ [t.id :: t.schema.serialize v],
                       cbLog := s.cbLog ++ [r] } r [], ?_, ?_, ?_, ?_, ?_, ?_, ?_, ?_⟩
  · simp only [run, hin]
    rw [if_pos (by simp)]
    have hh : handle_incoming_message s =
        route_data { s with inbuf := ([] : List Nat) } i payload := by
      simp only [handle_incoming_message, hin]
    rw [hh, hroute]
    simp [setTaskMsg, hq]
  · simp [setTaskMsg]
  · simp [setTaskMsg, alookup_aupdate_self, ht]
  · simp [setTaskMsg]
  · simp [setTaskMsg, hq]
  · simp [setTaskMsg]
  · simp [setTaskMsg]
  · simp [setTaskMsg]

/-- Witness for C1 (amended): the frame `[3, 7, 8]` dispatched to the rx
task `rxAckTask`, whose callback notifies completion, produces exactly the
acknowledgement frame `[3, 7, 8]`. -/
theorem c1_witness :
    ∃ s', run { exC1 with tasks := [(11, rxAckTask)] } = (s', none) ∧
      s'.cbLog = ({ exC1 with tasks := [(11, rxAckTask)] } : Sched).cbLog ++ [11] ∧
      (alookup 11 s'.tasks).map TaskObj.msg = some [] ∧
      s'.written = ({ exC1 with tasks := [(11, rxAckTask)] } : Sched).written ++
        [rxAckTask.id :: rxAckTask.schema.serialize [7, 8]] ∧
      s'.task_queue = [] ∧
      s'.task_holder = ({ exC1 with tasks := [(11, rxAckTask)] } : Sched).task_holder ∧
      s'.prev_task = ({ exC1 with tasks := [(11, rxAckTask)] } : Sched).prev_task ∧
      s'.start_time = ({ exC1 with tasks := [(11, rxAckTask)] } : Sched).start_time :=
  c1_rx_frame_tick { exC1 with tasks := [(11, rxAckTask)] } 3 11 rxAckTask [7, 8] [7, 8]
    rfl rfl rfl rfl rfl rfl

/-- C2 counterexample: in `exC2` the payload of frame `[3, 7]` fails the
target task's two-byte schema.  The tick returns the decode error (it does
not continue: despite a queued tx task that a completed tick would have
transmitted, nothing is written), no callback runs, and the target buffer
still holds its stale value `[9]` — it is not cleared, contradicting the
claim that the tick continues and the buffer is cleared. -/
theorem c2_counterexample :
    (run exC2).2 = some Err.decodeError ∧
    (run exC2).1.written = [] ∧
    (run exC2).1.cbLog = [] ∧
    (alookup 11 (run exC2).1.tasks).map TaskObj.msg = some [9] ∧
    (run exC2).1.task_queue = [21] :=
  ⟨rfl, rfl, rfl, rfl, rfl⟩

/-- C2 (amended): a payload failing to deserialize against its target
task's schema raises an error that propagates out of the tick — reported,
not silently dropped — but the tick aborts rather than continuing: no
callback runs, nothing is written, outbound handling is skipped, and the
buffer is not cleared; the only state change is the consumption of the
inbound bytes. -/
theorem c2_decode_failure_aborts_tick (s : Sched) (i r : Nat) (t : TaskObj)
    (payload : List Nat) (hreg : get_task s i = some r)
    (ht : alookup r s.tasks = some t) (hp : t.schema.parse payload = none)
    (hin : s.inbuf = i :: payload) :
    run s = ({ s with inbuf := [] }, some Err.decodeError) := by
  have hreg0 : get_task { s with inbuf := ([] : List Nat) } i = some r := hreg
  have ht0 : alookup r ({ s with inbuf := ([] : List Nat) } : Sched).tasks = some t := ht
  simp only [run, hin]
  rw [if_pos (by simp)]
  have hh : handle_incoming_message s =
      ({ s with inbuf := [] }, some Err.decodeError) := by
    simp only [handle_incoming_message, hin]
    simp only [route_data, hreg0, ht0, hp]
  rw [hh]

/-- Witness for C2 (amended): running the tick on `exC2` returns the decode
error with only the inbound bytes consumed. -/
theorem c2_witness : run exC2 = ({ exC2 with inbuf := [] }, some Err.decodeError) :=
  c2_decode_failure_aborts_tick exC2 3 11 rxLen2Task [7] rfl rfl rfl rfl

/-- C9: an inbound frame whose id matches both a registered rx task and the
queue head's id is dispatched to the rx task only — the callback is invoked
— and the queue head is not removed (the `elif` acknowledgement branch is
shadowed by the rx branch). -/
theorem c9_rx_registration_shadows_ack (s : Sched) (i r rq : Nat) (t : TaskObj)
    (rest : List Nat) (payload v : List Nat) (acts : List CbAct)
    (hreg : get_task s i = some r) (ht : alookup r s.tasks = some t)
    (hp : t.schema.parse payload = some v) (hcb : t.callback = some acts)
    (hq : s.task_queue = rq :: rest) :
    (route_data s i payload).2 = none ∧
    (route_data s i payload).1.cbLog = s.cbLog ++ [r] ∧
    ∃ rest', (route_data s i payload).1.task_queue = rq :: rest' := by
  rw [route_data_rx s i r t payload v acts hreg ht hp hcb]
  refine ⟨rfl, ?_, ?_⟩
  · simp [setTaskMsg, runCb_cbLog]
  · have h2 : ({ setTaskMsg s r v with cbLog := s.cbLog ++ [r] } : Sched).task_queue =
        rq :: rest := hq
    obtain ⟨l', hl'⟩ := runCb_queue_head acts _ rq rest h2
    exact ⟨l', by simpa [setTaskMsg] using hl'⟩

/-- Witness for C9: in `exC9` the frame id 3 matches both the registered rx
task (reference 11) and the queue head's id; the callback runs and the head
(reference 41) stays queued. -/
theorem c9_witness :
    (route_data exC9 3 [7]).2 = none ∧
    (route_data exC9 3 [7]).1.cbLog = exC9.cbLog ++ [11] ∧
    ∃ rest', (route_data exC9 3 [7]).1.task_queue = 41 :: rest' :=
  c9_rx_registration_shadows_ack exC9 3 11 41 rxNopTask [] [7] [7] []
    rfl rfl rfl rfl rfl

/-- C3: outbound handling acts only on the queue head, exactly when the head
differs from the previously handled task or the retry interval has elapsed
(first two conjuncts, quantified over any state); consequently, for a single
scheduled tx task with no inbound bytes, the first tick produces exactly one
write of the head's id byte plus payload, an immediate second tick within
the retry interval produces zero writes (the state is unchanged), and a tick
after the interval elapses produces exactly one more write with the same id
byte and resets the timer. -/
theorem c3_outbound_retry_gating (s : Sched) (r : Nat) (t : TaskObj) (n2 n3 : Nat)
    (ht : alookup r s.tasks = some t) (hcb : t.callback = none)
    (hq : s.task_queue = [r]) (hprev : s.prev_task = none) (hin : s.inbuf = [])
    (h1 : s.now - s.start_time ≤ TASK_RESET_TIME)
    (h2 : n2 - s.start_time ≤ TASK_RESET_TIME)
    (h3 : TASK_RESET_TIME < n3 - s.start_time) :
    (∀ s' r' rest', s'.task_queue = r' :: rest' → s'.prev_task = some r' →
        s'.now - s'.start_time ≤ TASK_RESET_TIME → handle_current_task s' = s') ∧
    (∀ s' r' rest' t', s'.task_queue = r' :: rest' →
        (s'.prev_task ≠ some r' ∨ TASK_RESET_TIME < s'.now - s'.start_time) →
        alookup r' s'.tasks = some t' → t'.callback = none →
        (handle_current_task s').written =
          s'.written ++ [t'.id :: t'.schema.serialize t'.msg]) ∧
    ∃ s1, run s = (s1, none) ∧
      s1.written = s.written ++ [t.id :: t.schema.serialize t.msg] ∧
      s1.task_queue = [r] ∧ s1.start_time = s.start_time ∧
      run { s1 with now := n2 } = ({ s1 with now := n2 }, none) ∧
      ∃ s3, run { s1 with now := n3 } = (s3, none) ∧
        s3.written = s1.written ++ [t.id :: t.schema.serialize []] ∧
        s3.task_queue = [r] ∧ s3.start_time = n3 := by
  refine ⟨fun s' r' rest' hq' hp' htm' => handle_current_no_act s' r' rest' hq' hp' htm',
    fun s' r' rest' t' hq' hc' ht' hcb' => by
      rw [handle_current_act s' r' rest' t' hq' hc' ht' hcb'], ?_⟩
  have e1 : handle_current_task s =
      { s with written := s.written ++ [t.id :: t.schema.serialize t.msg],
               tasks := aupdate r (fun t0 => { t0 with msg := [] }) s.tasks,
               prev_task := some r } := by
    rw [handle_current_act s r [] t hq (Or.inl (by simp [hprev])) ht hcb]
    simp [Nat.not_lt.mpr h1]
  have hrun1 : run s =
      ({ s with written := s.written ++ [t.id :: t.schema.serialize t.msg],
                tasks := aupdate r (fun t0 => { t0 with msg := [] }) s.tasks,
                prev_task := some r }, none) := by
    simp [run, hin, hq, e1]
  refine ⟨{ s with written := s.written ++ [t.id :: t.schema.serialize t.msg],
                   tasks := aupdate r (fun t0 => { t0 with msg := [] }) s.tasks,
                   prev_task := some r }, hrun1, rfl, hq, rfl, ?_, ?_⟩
  · have hna := handle_current_no_act
      { s with written := s.written ++ [t.id :: t.schema.serialize t.msg],
               tasks := aupdate r (fun t0 => { t0 with msg := [] }) s.tasks,
               prev_task := some r, now := n2 } r [] hq rfl h2
    simp only [run]
    rw [if_neg (by simp [hin])]
    rw [if_pos (by simp [hq])]
    rw [hna]
  · have ht3 : alookup r
        ({ s with written := s.written ++ [t.id :: t.schema.serialize t.msg],
                  tasks := aupdate r (fun t0 => { t0 with msg := [] }) s.tasks,
                  prev_task := some r, now := n3 } : Sched).tasks =
        some { t with msg := [] } := by
      simp [alookup_aupdate_self, ht]
    have e3 := handle_current_act
      { s with written := s.written ++ [t.id :: t.schema.serialize t.msg],
               tasks := aupdate r (fun t0 => { t0 with msg := [] }) s.tasks,
               prev_task := some r, now := n3 } r [] { t with msg := [] }
      hq (Or.inr h3) ht3 hcb
    rw [if_pos h3] at e3
    have hrun3 : run
        { s with written := s.written ++ [t.id :: t.schema.serialize t.msg],
                 tasks := aupdate r (fun t0 => { t0 with msg := [] }) s.tasks,
                 prev_task := some r, now := n3 } =
        (handle_current_task
          { s with written := s.written ++ [t.id :: t.schema.serialize t.msg],
                   tasks := aupdate r (fun t0 => { t0 with msg := [] }) s.tasks,
                   prev_task := some r, now := n3 }, none) := by
      simp only [run]
      rw [if_neg (by simp [hin])]
      rw [if_pos (by simp [hq])]
    rw [e3] at hrun3
    exact ⟨_, hrun3, rfl, hq, rfl⟩

/-- Witness for C3: `txTask7` (id 7, payload `[1, 2]`) scheduled alone in
`exC3` (timer started at 10): a tick at time 10 writes `[7, 1, 2]` once, a
tick at time 11 writes nothing, and a tick at time 12 writes `[7]` (id 7
plus the cleared buffer's serialization) and resets the timer to 12. -/
theorem c3_witness :
    (∀ s' r' rest', s'.task_queue = r' :: rest' → s'.prev_task = some r' →
        s'.now - s'.start_time ≤ TASK_RESET_TIME → handle_current_task s' = s') ∧
    (∀ s' r' rest' t', s'.task_queue = r' :: rest' →
        (s'.prev_task ≠ some r' ∨ TASK_RESET_TIME < s'.now - s'.start_time) →
        alookup r' s'.tasks = some t' → t'.callback = none →
        (handle_current_task s').written =
          s'.written ++ [t'.id :: t'.schema.serialize t'.msg]) ∧
    ∃ s1, run exC3 = (s1, none) ∧
      s1.written = exC3.written ++ [txTask7.id :: txTask7.schema.serialize txTask7.msg] ∧
      s1.task_queue = [31] ∧ s1.start_time = exC3.start_time ∧
      run { s1 with now := 11 } = ({ s1 with now := 11 }, none) ∧
      ∃ s3, run { s1 with now := 12 } = (s3, none) ∧
        s3.written = s1.written ++ [txTask7.id :: txTask7.schema.serialize []] ∧
        s3.task_queue = [31] ∧ s3.start_time = 12 :=
  c3_outbound_retry_gating exC3 31 txTask7 11 12 rfl rfl rfl rfl rfl
    (by decide) (by decide) (by decide)

end EmbeddedComm
